import Mathlib

/-!
Verification development for the Argentina macro risk-state repository.

The embedding covers the gate evaluation engine (`src/triggers/gates.py`),
the Sharpe/allocation model (`src/models/sharpe_engine.py`), the feature
computations (`src/features/fx_gap.py`, `src/features/reserves_momentum.py`,
`src/features/embi_bands.py`, the CPI annualization in `src/app/watcher.py`),
and the provider router (`src/data/provider_router.py`).

Conventions:
* Python floats feeding the threshold logic are embedded as rationals (ℚ);
  the Sharpe/sigmoid/CPI-annualization arithmetic, which uses `math.exp` and
  real exponentiation, is embedded over ℝ.
* Timestamps are embedded as integers (days); `datetime` subtraction
  `(a - b).days` becomes integer subtraction.
* The duckdb table `fact_series` is embedded as a list of rows
  `(series_id, ts, value)`; per the data model, points carry no null values.
  The SQL queries `ORDER BY ts DESC LIMIT 1/2` (optionally with `ts <= ?`)
  are embedded as folds where a later-inserted row wins a timestamp tie
  (last-inserted-wins, matching the documented dedup policy).
* Python exceptions are embedded with `Except`; a provider raising is an
  `Except.error` carrying the exception message.
-/

/-! ## Sharpe engine (`src/models/sharpe_engine.py`) -/

/-- FX market state classification (`FXState` enum). -/
inductive FXState where
  | GREEN
  | YELLOW
  | RED
deriving DecidableEq, Repr

/-- Sharpe ratio: `(exp_return - rf) / vol`, with the explicit zero-volatility
guard returning `0.0`. -/
noncomputable def compute_sharpe (exp_return vol : ℝ) (rf : ℝ := 0.045) : ℝ :=
  if vol = 0 then 0.0
  else (exp_return - rf) / vol

/-- Sigmoid position size `clip(1 / (1 + exp(-k * sharpe)), 0, 1)`. -/
noncomputable def sigmoid_position_size (sharpe : ℝ) (k : ℝ := 2.0) : ℝ :=
  let raw_size := 1.0 / (1.0 + Real.exp (-k * sharpe))
  max 0.0 (min 1.0 raw_size)

/-- Hedge percentage: `0.0` for GREEN, `0.5` otherwise. -/
def compute_hedge_pct (fx_state : FXState) : ℝ :=
  if fx_state = FXState.GREEN then 0.0 else 0.5

/-- Result dictionary of `compute_allocation`. -/
structure Allocation where
  sharpe : ℝ
  position_size : ℝ
  hedge_pct : ℝ

/-- Full allocation metrics: composes Sharpe, sigmoid position size and
state-gated hedge percent. -/
noncomputable def compute_allocation (exp_return vol : ℝ) (rf : ℝ := 0.045)
    (fx_state : FXState := FXState.RED) (k : ℝ := 2.0) : Allocation :=
  let sharpe := compute_sharpe exp_return vol rf
  let position_size := sigmoid_position_size sharpe k
  let hedge_pct := compute_hedge_pct fx_state
  { sharpe := sharpe, position_size := position_size, hedge_pct := hedge_pct }

/-! ## Gate evaluation (`src/triggers/gates.py`) -/

/-- FX gap dimension state: GREEN below 0.15, YELLOW below 0.25, else RED. -/
def evaluate_fx_gap_state (fx_gap : ℚ) : FXState :=
  if fx_gap < 0.15 then FXState.GREEN
  else if fx_gap < 0.25 then FXState.YELLOW
  else FXState.RED

/-- Reserves momentum dimension state: GREEN above 0.03, YELLOW above 0.0,
else RED. -/
def evaluate_reserves_momentum_state (reserves_mom_4w : ℚ) : FXState :=
  if reserves_mom_4w > 0.03 then FXState.GREEN
  else if reserves_mom_4w > 0.0 then FXState.YELLOW
  else FXState.RED

/-- CPI dimension state: GREEN below 0.25, YELLOW below 0.35, else RED. -/
def evaluate_cpi_state (core_cpi_3m_ann : ℚ) : FXState :=
  if core_cpi_3m_ann < 0.25 then FXState.GREEN
  else if core_cpi_3m_ann < 0.35 then FXState.YELLOW
  else FXState.RED

/-- EMBI dimension state: GREEN when `level < 1400` or `trend < -300`,
YELLOW when `level < 1600` or `trend < -100`, else RED. -/
def evaluate_embi_state (embi_level embi_trend_30d : ℚ) : FXState :=
  if embi_level < 1400 ∨ embi_trend_30d < -300 then FXState.GREEN
  else if embi_level < 1600 ∨ embi_trend_30d < -100 then FXState.YELLOW
  else FXState.RED

/-- Overall state: GREEN on the composite green condition; otherwise RED iff
all four per-dimension states are RED; otherwise YELLOW. -/
def evaluate_overall_state (fx_gap reserves_mom_4w core_cpi_3m_ann
    embi_level embi_trend_30d : ℚ) : FXState :=
  let gap_ok := fx_gap < 0.15 ∧ reserves_mom_4w > 0.03
  let cpi_ok := core_cpi_3m_ann < 0.25
  let embi_ok := embi_level < 1400 ∨ embi_trend_30d < -300
  if gap_ok ∧ cpi_ok ∧ embi_ok then FXState.GREEN
  else
    let states := [
      evaluate_fx_gap_state fx_gap,
      evaluate_reserves_momentum_state reserves_mom_4w,
      evaluate_cpi_state core_cpi_3m_ann,
      evaluate_embi_state embi_level embi_trend_30d]
    if states.all (fun s => s = FXState.RED) then FXState.RED
    else FXState.YELLOW

/-! ## Persisted series model (`fact_series` table in duckdb) -/

/-- Row of the `fact_series` table: `(series_id, ts, value)`. -/
abbrev Row := String × ℤ × ℚ

/-- Query `SELECT ts, value ... WHERE series_id = ? ORDER BY ts DESC LIMIT 1`:
the matching row with the greatest timestamp, a later-inserted row winning a
timestamp tie. -/
def qLatest (rows : List Row) (sid : String) : Option (ℤ × ℚ) :=
  rows.foldl
    (fun acc r =>
      if r.1 = sid then
        match acc with
        | none => some r.2
        | some p => if p.1 ≤ r.2.1 then some r.2 else some p
      else acc)
    none

/-- Query with the additional filter `ts <= ?`. -/
def qLatestAtOrBefore (rows : List Row) (sid : String) (cutoff : ℤ) :
    Option (ℤ × ℚ) :=
  rows.foldl
    (fun acc r =>
      if r.1 = sid ∧ r.2.1 ≤ cutoff then
        match acc with
        | none => some r.2
        | some p => if p.1 ≤ r.2.1 then some r.2 else some p
      else acc)
    none

/-- Insertion step keeping the two greatest-timestamp points in descending
order, a later-inserted point winning a tie. -/
def insertTop2 (acc : List (ℤ × ℚ)) (p : ℤ × ℚ) : List (ℤ × ℚ) :=
  match acc with
  | [] => [p]
  | [a] => if a.1 ≤ p.1 then [p, a] else [a, p]
  | a :: b :: _ => if a.1 ≤ p.1 then [p, a] else if b.1 ≤ p.1 then [a, p] else [a, b]

/-- Query `... ORDER BY ts DESC LIMIT 2`: the two matching rows with the
greatest timestamps, descending. -/
def qLatestTwo (rows : List Row) (sid : String) : List (ℤ × ℚ) :=
  rows.foldl (fun acc r => if r.1 = sid then insertTop2 acc r.2 else acc) []

/-! ## FX gap feature (`src/features/fx_gap.py`) -/

/-- Result record of the FX gap computation, canonical fields plus the
back-compat fields kept by the source. -/
structure FXGapResult where
  official : Option ℚ
  parallel : Option ℚ
  gap : Option ℚ
  official_ts : Option ℤ
  parallel_ts : Option ℤ
  status : String
  parallel_rate : Option ℚ
  official_rate : Option ℚ
  used_parallel : Option String
  used_official : Option String
deriving DecidableEq, Repr

/-- Latest `(ts, value)` for a single series id (`_get_latest_single`);
`(none, none)` when no row exists. -/
def get_latest_single (rows : List Row) (sid : String) :
    Option ℤ × Option ℚ :=
  match qLatest rows sid with
  | none => (none, none)
  | some (t, v) => (some t, some v)

/-- FX gap `(parallel - official) / official` for the latest observations.
The official side tries `USDARS_OFFICIAL` first and falls back to
`USDARS_OFFICIAL_BLUELYTICS` when the primary value is absent; when either
side is missing the populated result carries `gap = none` and status
`MISSING_DATA`. The Python return type is `Optional[FXGapResult]`, hence
the `Option`; the body always returns a populated record. -/
def compute_fx_gap (rows : List Row) : Option FXGapResult :=
  let pl := get_latest_single rows "USDARS_PARALLEL"
  let parallel_ts := pl.1
  let parallel_val := pl.2
  let off0 := get_latest_single rows "USDARS_OFFICIAL"
  let off : Option ℤ × Option ℚ × Option String :=
    if off0.2 = none then
      let ob := get_latest_single rows "USDARS_OFFICIAL_BLUELYTICS"
      (ob.1, ob.2,
        if ob.2.isSome then some "USDARS_OFFICIAL_BLUELYTICS" else none)
    else (off0.1, off0.2, some "USDARS_OFFICIAL")
  let official_ts := off.1
  let official_val := off.2.1
  let used_official := off.2.2
  match official_val, parallel_val with
  | some ov, some pv =>
    some { official := some ov, parallel := some pv,
           gap := some ((pv - ov) / ov),
           official_ts := official_ts, parallel_ts := parallel_ts,
           status := "OK",
           parallel_rate := some pv, official_rate := some ov,
           used_parallel := some "USDARS_PARALLEL",
           used_official := used_official }
  | _, _ =>
    some { official := official_val, parallel := parallel_val,
           gap := none,
           official_ts := official_ts, parallel_ts := parallel_ts,
           status := "MISSING_DATA",
           parallel_rate := parallel_val, official_rate := official_val,
           used_parallel :=
             if parallel_val.isSome then some "USDARS_PARALLEL" else none,
           used_official := used_official }

/-- Gap as the spec sentence words it: the most recent parallel observation
together with the most recent official observation at or before that
parallel observation's timestamp, the official falling back to the
bluelytics alias when the primary has no data there. Written from the
spec's words for comparison with `compute_fx_gap`. -/
def fx_gap_spec (rows : List Row) : Option ℚ :=
  match qLatest rows "USDARS_PARALLEL" with
  | none => none
  | some (pts, pv) =>
    let official :=
      match qLatestAtOrBefore rows "USDARS_OFFICIAL" pts with
      | some o => some o
      | none => qLatestAtOrBefore rows "USDARS_OFFICIAL_BLUELYTICS" pts
    match official with
    | none => none
    | some (_, ov) => some ((pv - ov) / ov)

/-! ## Reserves momentum feature (`src/features/reserves_momentum.py`) -/

/-- Result record of the reserves momentum computation. -/
structure ReservesMomentumResult where
  value : ℚ
  timestamp : ℤ
  reserves_current : Option ℚ
  reserves_4w_ago : Option ℚ
deriving DecidableEq, Repr

/-- Four-week reserves momentum `(Res_t - Res_t-28d) / Res_t-28d`; `none`
when the latest observation or the at-or-before-28-days-ago observation is
absent. -/
def compute_reserves_momentum (rows : List Row) :
    Option ReservesMomentumResult :=
  match qLatest rows "RESERVES_USD" with
  | none => none
  | some (latest_ts, latest_value) =>
    let date_4w_ago := latest_ts - 28
    match qLatestAtOrBefore rows "RESERVES_USD" date_4w_ago with
    | none => none
    | some (_, past_value) =>
      let momentum := (latest_value - past_value) / past_value
      some { value := momentum, timestamp := latest_ts,
             reserves_current := some latest_value,
             reserves_4w_ago := some past_value }

/-! ## EMBI bands feature (`src/features/embi_bands.py`) -/

/-- Result record of the EMBI band computation. -/
structure EMBIBandResult where
  low : ℚ
  mid : ℚ
  high : ℚ
  policy_score : ℚ
  current_embi : Option ℚ
  timestamp : ℤ
deriving DecidableEq, Repr

/-- Map a policy score (clamped to `[0, 2]`) to `(low, mid, high)` EMBI
fair-value bands. -/
def policy_score_to_bands (score : ℚ) : ℚ × ℚ × ℚ :=
  let score := max 0.0 (min 2.0 score)
  let mid := if score ≤ 1.0 then 1800 - score * 400 else 1400 - (score - 1.0) * 600
  (mid * 0.8, mid, mid * 1.2)

/-- EMBI fair-value bands; `now` stands for `datetime.now()`, used as the
timestamp when no `EMBI_AR` observation exists. The body always returns a
populated record, with `current_embi = none` when no observation exists. -/
def compute_embi_bands (policy_score : ℚ) (now : ℤ) (rows : List Row) :
    Option EMBIBandResult :=
  let lt_ce : ℤ × Option ℚ :=
    match qLatest rows "EMBI_AR" with
    | some (t, v) => (t, some v)
    | none => (now, none)
  let bands := policy_score_to_bands policy_score
  some { low := bands.1, mid := bands.2.1, high := bands.2.2,
         policy_score := policy_score,
         current_embi := lt_ce.2, timestamp := lt_ce.1 }

/-! ## CPI 3-month annualization (`src/app/watcher.py`; the dashboard copy
computes the identical formula) -/

/-- Three-month annualized core CPI from the two most recent `CPI_CORE`
observations: `months = days_diff / 30.0`; `none` when fewer than two
observations exist or `months = 0`; else
`(1 + monthly_rate) ^ (3 / months) - 1` with
`monthly_rate = latest/prev - 1`. -/
noncomputable def get_latest_core_cpi_3m_ann (rows : List Row) : Option ℝ :=
  match qLatestTwo rows "CPI_CORE" with
  | (latest_ts, latest_value) :: (prev_ts, prev_value) :: _ =>
    let days_diff : ℤ := latest_ts - prev_ts
    let months : ℝ := (days_diff : ℝ) / 30.0
    if months = 0 then none
    else
      let monthly_rate : ℝ := ((latest_value : ℝ) / (prev_value : ℝ)) - 1
      some ((1 + monthly_rate) ^ (3 / months) - 1)
  | _ => none

/-- Row set on which the code's FX gap and the spec's at-or-before FX gap
disagree: the official series has an observation after the parallel's
latest timestamp. -/
def fxRowsC6 : List Row :=
  [("USDARS_PARALLEL", 10, 1500), ("USDARS_OFFICIAL", 5, 1000),
   ("USDARS_OFFICIAL", 20, 1200)]

/-! ## Provider router (`src/data/provider_router.py`) -/

/-- Failure of a provider fetch: a typed `ProviderError` with its message, or
any other raised exception with its message. -/
inductive PErr where
  | providerError (msg : String)
  | otherError (msg : String)
deriving DecidableEq, Repr

/-- A registered provider: `fetch_timeseries(series_code, start, end)`
returning points or raising. -/
structure Provider where
  fetch : String → Option String → Option String → Except PErr (List (ℤ × ℚ))

/-- The four concrete provider instances held by the `PROVIDERS` registry;
their fetch behavior is external (network I/O), so it is a parameter. -/
structure Registry where
  bcra : Provider
  indec : Provider
  yahoofx : Provider
  bluelytics : Provider

/-- The `PROVIDERS` registry: exactly the four names BCRA, INDEC, YAHOOFX,
BLUELYTICS are mapped (the IMF/TE entries are commented out in the
source). -/
def PROVIDERS (R : Registry) : String → Option Provider := fun name =>
  if name = "BCRA" then some R.bcra
  else if name = "INDEC" then some R.indec
  else if name = "YAHOOFX" then some R.yahoofx
  else if name = "BLUELYTICS" then some R.bluelytics
  else none

/-- Default provider order `"BCRA,INDEC,BLUELYTICS,YAHOOFX,IMF,TE"`, already
split on commas and stripped. -/
def DEFAULT_ORDER : List String :=
  ["BCRA", "INDEC", "BLUELYTICS", "YAHOOFX", "IMF", "TE"]

/-- The router's fallback loop over the remaining candidate names, carrying
the recorded last error and, for the invocation-order claims, the list of
providers invoked so far. Unregistered names are skipped; a non-empty `ok`
result returns immediately; an empty `ok` result falls through; a
`ProviderError` records its message; any other error records the wrapped
`Unexpected error from ...` message. On exhaustion the aggregate error
message depends on whether a last error was recorded. -/
def routerLoop (P : String → Option Provider) (code : String)
    (s e : Option String) (allNames : List String) :
    List String → Option String → List String →
      Except String (List (ℤ × ℚ)) × List String
  | [], lastErr, invoked =>
    (match lastErr with
     | some err => Except.error
         ("All providers failed for series_code=" ++ code ++
          ". Last error: " ++ err)
     | none => Except.error
         ("No providers available for series_code=" ++ code ++
          ". Tried: " ++ String.intercalate ", " allNames),
     invoked)
  | n :: rest, lastErr, invoked =>
    match P n with
    | none => routerLoop P code s e allNames rest lastErr invoked
    | some p =>
      match p.fetch code s e with
      | Except.ok result =>
        match result with
        | [] => routerLoop P code s e allNames rest lastErr (invoked ++ [n])
        | _ => (Except.ok result, invoked ++ [n])
      | Except.error (PErr.providerError m) =>
        routerLoop P code s e allNames rest (some m) (invoked ++ [n])
      | Except.error (PErr.otherError m) =>
        routerLoop P code s e allNames rest
          (some ("Unexpected error from " ++ n ++ ": " ++ m)) (invoked ++ [n])

/-- Router result together with the list of providers invoked, in order.
`preferred` is the parsed provider order (the `PREFERRED_PROVIDERS`
environment value split on commas, defaulting to `DEFAULT_ORDER`). -/
def fetch_series_trace (R : Registry) (preferred : List String)
    (code : String) (s e : Option String) :
    Except String (List (ℤ × ℚ)) × List String :=
  routerLoop (PROVIDERS R) code s e preferred preferred none []

/-- Fetch a series with provider fallback (`fetch_series`). -/
def fetch_series (R : Registry) (preferred : List String) (code : String)
    (s e : Option String) : Except String (List (ℤ × ℚ)) :=
  (fetch_series_trace R preferred code s e).1

/-- The last error message the loop would have recorded after trying the
given names (mirrors the loop's `last_error` updates). -/
def lastRecordedError (P : String → Option Provider) (code : String)
    (s e : Option String) : List String → Option String → Option String
  | [], acc => acc
  | n :: rest, acc =>
    match P n with
    | none => lastRecordedError P code s e rest acc
    | some p =>
      match p.fetch code s e with
      | Except.ok _ => lastRecordedError P code s e rest acc
      | Except.error (PErr.providerError m) =>
        lastRecordedError P code s e rest (some m)
      | Except.error (PErr.otherError m) =>
        lastRecordedError P code s e rest
          (some ("Unexpected error from " ++ n ++ ": " ++ m))

/-! ### Substring containment (for the aggregate-message claims) -/

/-- Boolean test that `needle` begins the list `hay`. -/
def startsWithChars : List Char → List Char → Bool
  | [], _ => true
  | _ :: _, [] => false
  | a :: as, b :: bs => a = b && startsWithChars as bs

/-- Boolean test that `needle` occurs contiguously inside `hay`. -/
def hasSubChars (needle : List Char) : List Char → Bool
  | [] => needle.isEmpty
  | c :: t => startsWithChars needle (c :: t) || hasSubChars needle t

/-- String containment: `needle` occurs contiguously inside `hay`. -/
def strContains (hay needle : String) : Bool :=
  hasSubChars needle.data hay.data

/-! ### Example providers and registries for the router claims -/

/-- Provider whose fetch always raises `ProviderError(msg)`. -/
def errProvider (msg : String) : Provider :=
  ⟨fun _ _ _ => Except.error (PErr.providerError msg)⟩

/-- Provider whose fetch always succeeds with the given points. -/
def okProvider (pts : List (ℤ × ℚ)) : Provider :=
  ⟨fun _ _ _ => Except.ok pts⟩

/-- Registry in which every provider raises. -/
def allErrRegistry : Registry :=
  ⟨errProvider "boom", errProvider "indec down", errProvider "yahoo down",
   errProvider "bluelytics down"⟩

/-- Registry for the short-circuit scenario: BCRA succeeds empty, INDEC
succeeds non-empty, YAHOOFX would raise. -/
def shortCircuitRegistry : Registry :=
  ⟨okProvider [], okProvider [(0, 1)], errProvider "kaboom",
   okProvider [(5, 7)]⟩

/-! ## State evaluation and position sizing (`evaluate_states`) -/

/-- Result dictionary of `evaluate_states`. -/
structure EvalResult where
  dimension_states : List (String × FXState)
  overall_state : FXState
  macro_weight : ℝ
  action_note : String
  sharpe : ℝ
  hedge_pct : ℝ

/-- Textual action note keyed on the overall state and the RED dimensions;
`fmt` stands for Python's `f"{x:.1%}"` percent formatting of a float. -/
noncomputable def generate_action_note (fmt : ℝ → String)
    (overall_state : FXState) (dimension_states : List (String × FXState))
    (macro_weight : ℝ) : String :=
  if overall_state = FXState.GREEN then
    let base_note := "GREEN: Favorable conditions across key dimensions. "
    if macro_weight > 0.7 then
      base_note ++ "High conviction position recommended."
    else if macro_weight > 0.4 then
      base_note ++ "Moderate position size recommended."
    else
      base_note ++ "Conservative position size despite favorable conditions."
  else if overall_state = FXState.YELLOW then
    let red_dims :=
      (dimension_states.filter (fun kv => kv.2 = FXState.RED)).map (·.1)
    if red_dims ≠ [] then
      "YELLOW: Monitor closely. Risk areas: " ++
        String.intercalate ", " red_dims ++ ". Position size: " ++
        fmt macro_weight ++ "."
    else
      "YELLOW: Mixed signals. Cautious positioning recommended (weight: " ++
        fmt macro_weight ++ ")."
  else
    let red_dims :=
      (dimension_states.filter (fun kv => kv.2 = FXState.RED)).map (·.1)
    "RED: Elevated risks across " ++ toString red_dims.length ++
      " dimension(s). Minimal or no position recommended. Risk areas: " ++
      String.intercalate ", " red_dims ++ "."

/-- Evaluate the four dimension states, the overall state, and the
Sharpe-engine allocation (`evaluate_states`). -/
noncomputable def evaluate_states (fmt : ℝ → String)
    (fx_gap reserves_mom_4w core_cpi_3m_ann embi_level embi_trend_30d : ℚ)
    (exp_return : ℝ := 0.12) (vol : ℝ := 0.18) (rf : ℝ := 0.045) :
    EvalResult :=
  let gap_state := evaluate_fx_gap_state fx_gap
  let reserves_state := evaluate_reserves_momentum_state reserves_mom_4w
  let cpi_state := evaluate_cpi_state core_cpi_3m_ann
  let embi_state := evaluate_embi_state embi_level embi_trend_30d
  let dimension_states := [
    ("fx_gap", gap_state),
    ("reserves_momentum", reserves_state),
    ("core_cpi", cpi_state),
    ("embi", embi_state)]
  let overall_state := evaluate_overall_state fx_gap reserves_mom_4w
    core_cpi_3m_ann embi_level embi_trend_30d
  let allocation := compute_allocation exp_return vol rf overall_state
  let macro_weight := allocation.position_size
  let action_note :=
    generate_action_note fmt overall_state dimension_states macro_weight
  { dimension_states := dimension_states,
    overall_state := overall_state,
    macro_weight := macro_weight,
    action_note := action_note,
    sharpe := allocation.sharpe,
    hedge_pct := allocation.hedge_pct }

/-! ## Lemmas and claim theorems -/
lemma fx_gap_green_iff (g : ℚ) :
    evaluate_fx_gap_state g = FXState.GREEN ↔ g < 0.15 := by
  unfold evaluate_fx_gap_state
  split_ifs with h1 h2 <;> simp_all

lemma fx_gap_red_iff (g : ℚ) :
    evaluate_fx_gap_state g = FXState.RED ↔ 0.25 ≤ g := by
  unfold evaluate_fx_gap_state
  split_ifs with h1 h2 <;> simp_all <;> linarith

lemma reserves_green_iff (r : ℚ) :
    evaluate_reserves_momentum_state r = FXState.GREEN ↔ r > 0.03 := by
  unfold evaluate_reserves_momentum_state
  split_ifs with h1 h2 <;> simp_all

lemma reserves_red_iff (r : ℚ) :
    evaluate_reserves_momentum_state r = FXState.RED ↔ r ≤ 0.0 := by
  unfold evaluate_reserves_momentum_state
  split_ifs with h1 h2 <;> simp_all <;> linarith

lemma cpi_green_iff (c : ℚ) :
    evaluate_cpi_state c = FXState.GREEN ↔ c < 0.25 := by
  unfold evaluate_cpi_state
  split_ifs with h1 h2 <;> simp_all

lemma cpi_red_iff (c : ℚ) :
    evaluate_cpi_state c = FXState.RED ↔ 0.35 ≤ c := by
  unfold evaluate_cpi_state
  split_ifs with h1 h2 <;> simp_all <;> linarith

lemma embi_green_iff (l t : ℚ) :
    evaluate_embi_state l t = FXState.GREEN ↔ (l < 1400 ∨ t < -300) := by
  unfold evaluate_embi_state
  split_ifs with h1 h2 <;> simp_all

lemma embi_red_iff (l t : ℚ) :
    evaluate_embi_state l t = FXState.RED ↔
      ¬(l < 1400 ∨ t < -300) ∧ ¬(l < 1600 ∨ t < -100) := by
  unfold evaluate_embi_state
  split_ifs with h1 h2 <;> simp_all

lemma overall_green_iff (g r c l t : ℚ) :
    evaluate_overall_state g r c l t = FXState.GREEN ↔
      ((g < 0.15 ∧ r > 0.03) ∧ c < 0.25 ∧ (l < 1400 ∨ t < -300)) := by
  unfold evaluate_overall_state
  dsimp only
  split_ifs with h1 h2 <;> simp_all

lemma overall_red_iff (g r c l t : ℚ) :
    evaluate_overall_state g r c l t = FXState.RED ↔
      (evaluate_fx_gap_state g = FXState.RED ∧
       evaluate_reserves_momentum_state r = FXState.RED ∧
       evaluate_cpi_state c = FXState.RED ∧
       evaluate_embi_state l t = FXState.RED) := by
  unfold evaluate_overall_state
  dsimp only
  split_ifs with h1 h2
  · constructor
    · intro h; cases h
    · rintro ⟨hfx, -, -, -⟩
      rw [fx_gap_red_iff] at hfx
      exact absurd h1.1.1 (by linarith)
  · simp_all [List.all_eq_true]
  · simp only [List.all_eq_true, List.mem_cons] at h2
    constructor
    · intro h; cases h
    · rintro ⟨hfx, hr, hc, he⟩
      exact absurd (fun s hs => by
        rcases hs with h | h | h | h | h <;> simp_all) h2

lemma fxstate_eq_yellow_of (s : FXState) (h1 : s ≠ FXState.GREEN)
    (h2 : s ≠ FXState.RED) : s = FXState.YELLOW := by
  cases s <;> simp_all

/-- Claim C1: for all five numeric inputs, `evaluate_overall_state` returns
RED if and only if it does not return GREEN and all four per-dimension
classifiers return RED; in particular, with `fx_gap = 0.30` (a RED fx-gap
dimension) and the other three dimensions GREEN, the overall state is
YELLOW, not RED. -/
theorem claim_C1 :
    (∀ g r c l t : ℚ,
      evaluate_overall_state g r c l t = FXState.RED ↔
        (evaluate_overall_state g r c l t ≠ FXState.GREEN ∧
         evaluate_fx_gap_state g = FXState.RED ∧
         evaluate_reserves_momentum_state r = FXState.RED ∧
         evaluate_cpi_state c = FXState.RED ∧
         evaluate_embi_state l t = FXState.RED)) ∧
    evaluate_overall_state 0.30 0.05 0.20 1300 0 = FXState.YELLOW := by
  constructor
  · intro g r c l t
    rw [overall_red_iff]
    constructor
    · intro h
      refine ⟨?_, h⟩
      rw [Ne, overall_green_iff]
      rintro ⟨⟨hg, -⟩, -, -⟩
      have := (fx_gap_red_iff g).mp h.1
      linarith
    · rintro ⟨-, h⟩
      exact h
  · apply fxstate_eq_yellow_of
    · rw [Ne, overall_green_iff]
      norm_num
    · rw [Ne, overall_red_iff]
      rintro ⟨-, hr, -, -⟩
      have := (reserves_red_iff _).mp hr
      norm_num at this

/-- Witness for C1: the all-RED scenario `(0.40, -0.05, 0.50, 1800, 200)`
yields overall RED via the characterization. -/
theorem claim_C1_witness :
    evaluate_overall_state 0.40 (-0.05) 0.50 1800 200 = FXState.RED :=
  (claim_C1.1 0.40 (-0.05) 0.50 1800 200).mpr
    ⟨by rw [Ne, overall_green_iff]; norm_num,
     (fx_gap_red_iff _).mpr (by norm_num),
     (reserves_red_iff _).mpr (by norm_num),
     (cpi_red_iff _).mpr (by norm_num),
     (embi_red_iff _ _).mpr (by norm_num)⟩

/-- Claim C2: `evaluate_overall_state` returns GREEN if and only if all four
per-dimension classifiers return GREEN — the re-derived composite GREEN
condition and the conjunction of the four per-dimension GREEN
classifications agree on every input. -/
theorem claim_C2 :
    ∀ g r c l t : ℚ,
      evaluate_overall_state g r c l t = FXState.GREEN ↔
        (evaluate_fx_gap_state g = FXState.GREEN ∧
         evaluate_reserves_momentum_state r = FXState.GREEN ∧
         evaluate_cpi_state c = FXState.GREEN ∧
         evaluate_embi_state l t = FXState.GREEN) := by
  intro g r c l t
  rw [overall_green_iff, fx_gap_green_iff, reserves_green_iff, cpi_green_iff,
    embi_green_iff]
  tauto

/-- Witness for C2: the benign scenario `(0.10, 0.05, 0.20, 1300, 0)` yields
overall GREEN via the equivalence. -/
theorem claim_C2_witness :
    evaluate_overall_state 0.10 0.05 0.20 1300 0 = FXState.GREEN :=
  (claim_C2 0.10 0.05 0.20 1300 0).mpr
    ⟨(fx_gap_green_iff _).mpr (by norm_num),
     (reserves_green_iff _).mpr (by norm_num),
     (cpi_green_iff _).mpr (by norm_num),
     (embi_green_iff _ _).mpr (Or.inl (by norm_num))⟩

/-- Claim C5: threshold inclusivity of the per-dimension classifiers:
`evaluate_fx_gap_state 0.15 = YELLOW`; every `x < 0.15` is GREEN;
`evaluate_cpi_state 0.25 = YELLOW`; `evaluate_embi_state` is GREEN whenever
`level < 1400` or `trend < -300`; and `trend = -300` does not qualify as
GREEN via the trend disjunct (strict inequality required). -/
theorem claim_C5 :
    evaluate_fx_gap_state 0.15 = FXState.YELLOW ∧
    (∀ x : ℚ, x < 0.15 → evaluate_fx_gap_state x = FXState.GREEN) ∧
    evaluate_cpi_state 0.25 = FXState.YELLOW ∧
    (∀ l t : ℚ, l < 1400 ∨ t < -300 → evaluate_embi_state l t = FXState.GREEN) ∧
    (∀ l : ℚ, ¬ l < 1400 → evaluate_embi_state l (-300) ≠ FXState.GREEN) := by
  refine ⟨by norm_num [evaluate_fx_gap_state], ?_,
    by norm_num [evaluate_cpi_state], ?_, ?_⟩
  · intro x hx
    exact (fx_gap_green_iff x).mpr hx
  · intro l t h
    exact (embi_green_iff l t).mpr h
  · intro l hl
    rw [Ne, embi_green_iff]
    rintro (h | h)
    · exact hl h
    · exact absurd h (by norm_num)

/-- Witness for C5: concrete boundary evaluations discharging each
hypothesis of the claim. -/
theorem claim_C5_witness :
    evaluate_fx_gap_state 0.149999 = FXState.GREEN ∧
    evaluate_embi_state 1399.999 0 = FXState.GREEN ∧
    evaluate_embi_state 1500 (-300) ≠ FXState.GREEN :=
  ⟨claim_C5.2.1 0.149999 (by norm_num),
   claim_C5.2.2.2.1 1399.999 0 (Or.inl (by norm_num)),
   claim_C5.2.2.2.2 1500 (by norm_num)⟩

/-- Counterexample for C6: on `fxRowsC6` the code uses the official
observation at timestamp 20, after the parallel observation's timestamp 10,
yielding gap 1/4, while the official observation at or before the parallel
timestamp yields 1/2. -/
theorem claim_C6_counterexample :
    (compute_fx_gap fxRowsC6).map FXGapResult.gap = some (some (1 / 4)) ∧
    fx_gap_spec fxRowsC6 = some (1 / 2) ∧ (1 / 4 : ℚ) ≠ 1 / 2 := by
  refine ⟨?_, ?_, by norm_num⟩
  · simp [compute_fx_gap, get_latest_single, qLatest, fxRowsC6]
    norm_num
  · simp [fx_gap_spec, qLatest, qLatestAtOrBefore, fxRowsC6]
    norm_num

/-- Claim C6 as amended: the FX gap uses the most recent parallel
observation and the most recent official observation overall (not
restricted to at-or-before the parallel timestamp), falling back from
`USDARS_OFFICIAL` to `USDARS_OFFICIAL_BLUELYTICS` only when the primary has
no data. -/
theorem claim_C6_amended :
    (∀ (rows : List Row) (pts ots : ℤ) (pv ov : ℚ),
      qLatest rows "USDARS_PARALLEL" = some (pts, pv) →
      qLatest rows "USDARS_OFFICIAL" = some (ots, ov) →
      ∃ res, compute_fx_gap rows = some res ∧
        res.gap = some ((pv - ov) / ov) ∧
        res.used_official = some "USDARS_OFFICIAL" ∧
        res.status = "OK") ∧
    (∀ (rows : List Row) (pts ots : ℤ) (pv ov : ℚ),
      qLatest rows "USDARS_PARALLEL" = some (pts, pv) →
      qLatest rows "USDARS_OFFICIAL" = none →
      qLatest rows "USDARS_OFFICIAL_BLUELYTICS" = some (ots, ov) →
      ∃ res, compute_fx_gap rows = some res ∧
        res.gap = some ((pv - ov) / ov) ∧
        res.used_official = some "USDARS_OFFICIAL_BLUELYTICS" ∧
        res.status = "OK") := by
  constructor
  · intro rows pts ots pv ov hp ho
    refine ⟨{ official := some ov, parallel := some pv,
              gap := some ((pv - ov) / ov),
              official_ts := some ots, parallel_ts := some pts,
              status := "OK", parallel_rate := some pv,
              official_rate := some ov,
              used_parallel := some "USDARS_PARALLEL",
              used_official := some "USDARS_OFFICIAL" }, ?_, rfl, rfl, rfl⟩
    unfold compute_fx_gap get_latest_single
    rw [hp, ho]
    rfl
  · intro rows pts ots pv ov hp ho hb
    refine ⟨{ official := some ov, parallel := some pv,
              gap := some ((pv - ov) / ov),
              official_ts := some ots, parallel_ts := some pts,
              status := "OK", parallel_rate := some pv,
              official_rate := some ov,
              used_parallel := some "USDARS_PARALLEL",
              used_official := some "USDARS_OFFICIAL_BLUELYTICS" }, ?_,
      rfl, rfl, rfl⟩
    unfold compute_fx_gap get_latest_single
    rw [hp, ho, hb]
    rfl

/-- Witness for the amended C6: on `fxRowsC6` the primary branch applies
with the latest official observation `(20, 1200)`. -/
theorem claim_C6_amended_witness :
    ∃ res, compute_fx_gap fxRowsC6 = some res ∧
      res.gap = some ((1500 - 1200) / 1200) ∧
      res.used_official = some "USDARS_OFFICIAL" ∧
      res.status = "OK" :=
  claim_C6_amended.1 fxRowsC6 10 20 1500 1200 (by rfl) (by rfl)

/-- Counterexample for C7: with an empty table neither `compute_fx_gap` nor
`compute_embi_bands` returns `none`; both return populated records. -/
theorem claim_C7_counterexample :
    compute_fx_gap [] ≠ none ∧ compute_embi_bands 1 0 [] ≠ none := by
  constructor
  · intro h
    simp [compute_fx_gap, get_latest_single, qLatest] at h
  · intro h
    simp [compute_embi_bands, qLatest] at h

/-- Claim C7 as amended: `compute_reserves_momentum` returns `none` when its
underlying data is absent, while `compute_fx_gap` returns a populated record
with `gap = none` and status `MISSING_DATA`, and `compute_embi_bands`
returns a populated record with `current_embi = none`. -/
theorem claim_C7_amended :
    (∀ rows : List Row, qLatest rows "RESERVES_USD" = none →
      compute_reserves_momentum rows = none) ∧
    (∀ (rows : List Row) (t : ℤ) (v : ℚ),
      qLatest rows "RESERVES_USD" = some (t, v) →
      qLatestAtOrBefore rows "RESERVES_USD" (t - 28) = none →
      compute_reserves_momentum rows = none) ∧
    (∀ rows : List Row,
      (get_latest_single rows "USDARS_PARALLEL").2 = none ∨
        ((get_latest_single rows "USDARS_OFFICIAL").2 = none ∧
         (get_latest_single rows "USDARS_OFFICIAL_BLUELYTICS").2 = none) →
      ∃ res, compute_fx_gap rows = some res ∧ res.gap = none ∧
        res.status = "MISSING_DATA") ∧
    (∀ (ps : ℚ) (now : ℤ) (rows : List Row),
      qLatest rows "EMBI_AR" = none →
      ∃ res, compute_embi_bands ps now rows = some res ∧
        res.current_embi = none) := by
  refine ⟨?_, ?_, ?_, ?_⟩
  · intro rows h
    unfold compute_reserves_momentum
    rw [h]
  · intro rows t v h hpast
    unfold compute_reserves_momentum
    rw [h]
    dsimp only
    rw [hpast]
  · intro rows h
    rcases hP : get_latest_single rows "USDARS_PARALLEL" with ⟨pts, pv⟩
    rcases hO : get_latest_single rows "USDARS_OFFICIAL" with ⟨ots, ov⟩
    rcases hB : get_latest_single rows "USDARS_OFFICIAL_BLUELYTICS" with ⟨bts, bv⟩
    rw [hP, hO, hB] at h
    unfold compute_fx_gap
    rw [hP, hO, hB]
    dsimp only at h ⊢
    rcases pv with _ | pv
    · rcases ov with _ | ov
      · rw [if_pos rfl]
        cases bv <;> exact ⟨_, rfl, rfl, rfl⟩
      · rw [if_neg (by simp)]
        exact ⟨_, rfl, rfl, rfl⟩
    · rcases h with h | ⟨hov, hbv⟩
      · exact absurd h (by simp)
      · rw [hov, hbv]
        rw [if_pos rfl]
        exact ⟨_, rfl, rfl, rfl⟩
  · intro ps now rows h
    unfold compute_embi_bands
    rw [h]
    exact ⟨_, rfl, rfl⟩

/-- Witness for the amended C7: concrete instantiations of all four parts.
`compute_reserves_momentum` on the empty table and on a single-row table is
`none`; `compute_fx_gap` on the empty table is a `MISSING_DATA` record;
`compute_embi_bands` on the empty table has `current_embi = none`. -/
theorem claim_C7_amended_witness :
    compute_reserves_momentum [] = none ∧
    compute_reserves_momentum [("RESERVES_USD", 0, 100)] = none ∧
    (∃ res, compute_fx_gap [] = some res ∧ res.gap = none ∧
      res.status = "MISSING_DATA") ∧
    (∃ res, compute_embi_bands 1 0 [] = some res ∧
      res.current_embi = none) :=
  ⟨claim_C7_amended.1 [] rfl,
   claim_C7_amended.2.1 [("RESERVES_USD", 0, 100)] 0 100 (by rfl) (by rfl),
   claim_C7_amended.2.2.1 [] (Or.inl rfl),
   claim_C7_amended.2.2.2 1 0 [] rfl⟩

/-- Claim C9: the CPI 3-month annualization is idempotent at zero — when the
two most recent `CPI_CORE` observations carry equal (nonzero) values and
distinct timestamps, the annualized rate is exactly 0, whatever the months
elapsed. -/
theorem claim_C9 :
    ∀ (rows : List Row) (t1 t2 : ℤ) (v : ℚ) (rest : List (ℤ × ℚ)),
      qLatestTwo rows "CPI_CORE" = (t1, v) :: (t2, v) :: rest →
      v ≠ 0 → t1 ≠ t2 →
      get_latest_core_cpi_3m_ann rows = some 0 := by
  intro rows t1 t2 v rest h hv ht
  unfold get_latest_core_cpi_3m_ann
  rw [h]
  dsimp only
  have hm : ((t1 - t2 : ℤ) : ℝ) / 30.0 ≠ 0 := by
    rw [div_ne_zero_iff]
    constructor
    · exact_mod_cast sub_ne_zero.mpr ht
    · norm_num
  rw [if_neg hm]
  have hvv : ((v : ℝ) / (v : ℝ)) = 1 := div_self (by exact_mod_cast hv)
  rw [hvv]
  norm_num [Real.one_rpow]

/-- Witness for C9: two equal CPI observations 60 days apart annualize to
exactly 0. -/
theorem claim_C9_witness :
    get_latest_core_cpi_3m_ann
      [("CPI_CORE", 0, 100), ("CPI_CORE", 60, 100)] = some 0 :=
  claim_C9 _ 60 0 100 [] (by rfl) (by norm_num) (by norm_num)

lemma startsWithChars_self_append (b c : List Char) :
    startsWithChars b (b ++ c) = true := by
  induction b with
  | nil => rfl
  | cons a as ih => simp [startsWithChars, ih]

lemma hasSubChars_of_startsWith {b hay : List Char}
    (h : startsWithChars b hay = true) : hasSubChars b hay = true := by
  cases hay with
  | nil =>
    cases b with
    | nil => rfl
    | cons x xs => exact absurd h (by simp [startsWithChars])
  | cons c t => simp [hasSubChars, h]

lemma hasSubChars_append (a b c : List Char) :
    hasSubChars b (a ++ b ++ c) = true := by
  induction a with
  | nil => exact hasSubChars_of_startsWith (startsWithChars_self_append b c)
  | cons x xs ih =>
    simp only [List.cons_append, hasSubChars, Bool.or_eq_true]
    right
    exact ih

lemma strContains_of_shape (pre mid post : String) :
    strContains (pre ++ mid ++ post) mid = true := by
  unfold strContains
  rw [String.data_append, String.data_append]
  exact hasSubChars_append pre.data mid.data post.data

lemma routerLoop_all_error (P : String → Option Provider) (code : String)
    (s e : Option String) (allNames : List String) :
    ∀ (names : List String) (acc : Option String) (inv : List String),
      (∀ n ∈ names, ∀ p, P n = some p →
        ∃ err, p.fetch code s e = Except.error err) →
      (routerLoop P code s e allNames names acc inv).1 =
        match lastRecordedError P code s e names acc with
        | some err => Except.error
            ("All providers failed for series_code=" ++ code ++
             ". Last error: " ++ err)
        | none => Except.error
            ("No providers available for series_code=" ++ code ++
             ". Tried: " ++ String.intercalate ", " allNames) := by
  intro names
  induction names with
  | nil => intro acc inv _; rfl
  | cons n rest ih =>
    intro acc inv hall
    have htail : ∀ n' ∈ rest, ∀ p, P n' = some p →
        ∃ err, p.fetch code s e = Except.error err :=
      fun n' hn' => hall n' (List.mem_cons_of_mem n hn')
    cases hPn : P n with
    | none =>
      simp only [routerLoop, lastRecordedError, hPn]
      exact ih acc inv htail
    | some p =>
      obtain ⟨err, herr⟩ := hall n (List.mem_cons_self n rest) p hPn
      cases err with
      | providerError m =>
        simp only [routerLoop, lastRecordedError, hPn, herr]
        exact ih (some m) (inv ++ [n]) htail
      | otherError m =>
        simp only [routerLoop, lastRecordedError, hPn, herr]
        exact ih (some ("Unexpected error from " ++ n ++ ": " ++ m))
          (inv ++ [n]) htail

lemma lastRecordedError_isSome_of_acc (P : String → Option Provider)
    (code : String) (s e : Option String) :
    ∀ (names : List String) (acc : Option String), acc.isSome →
      (lastRecordedError P code s e names acc).isSome := by
  intro names
  induction names with
  | nil => intro acc h; exact h
  | cons n rest ih =>
    intro acc h
    cases hPn : P n with
    | none => simp only [lastRecordedError, hPn]; exact ih acc h
    | some p =>
      cases hf : p.fetch code s e with
      | ok res => simp only [lastRecordedError, hPn, hf]; exact ih acc h
      | error err =>
        cases err with
        | providerError m =>
          simp only [lastRecordedError, hPn, hf]
          exact ih (some m) rfl
        | otherError m =>
          simp only [lastRecordedError, hPn, hf]
          exact ih _ rfl

lemma lastRecordedError_isSome (P : String → Option Provider) (code : String)
    (s e : Option String) :
    ∀ (names : List String) (acc : Option String),
      (∀ n ∈ names, ∀ p, P n = some p →
        ∃ err, p.fetch code s e = Except.error err) →
      (∃ n ∈ names, (P n).isSome) →
      (lastRecordedError P code s e names acc).isSome := by
  intro names
  induction names with
  | nil =>
    intro acc _ hex
    obtain ⟨n, hn, -⟩ := hex
    exact absurd hn (List.not_mem_nil n)
  | cons n rest ih =>
    intro acc hall hex
    have htail : ∀ n' ∈ rest, ∀ p, P n' = some p →
        ∃ err, p.fetch code s e = Except.error err :=
      fun n' hn' => hall n' (List.mem_cons_of_mem n hn')
    cases hPn : P n with
    | none =>
      simp only [lastRecordedError, hPn]
      refine ih acc htail ?_
      obtain ⟨m, hm, hms⟩ := hex
      rcases List.mem_cons.mp hm with rfl | hm'
      · rw [hPn] at hms; exact absurd hms (by simp)
      · exact ⟨m, hm', hms⟩
    | some p =>
      obtain ⟨err, herr⟩ := hall n (List.mem_cons_self n rest) p hPn
      cases err with
      | providerError m =>
        simp only [lastRecordedError, hPn, herr]
        exact lastRecordedError_isSome_of_acc P code s e rest (some m) rfl
      | otherError m =>
        simp only [lastRecordedError, hPn, herr]
        exact lastRecordedError_isSome_of_acc P code s e rest _ rfl

lemma routerLoop_falls_through (P : String → Option Provider) (code : String)
    (s e : Option String) (allNames : List String) :
    ∀ (pre rest : List String) (acc : Option String) (inv : List String),
      (∀ m ∈ pre, ∀ q, P m = some q →
        q.fetch code s e = Except.ok [] ∨
          ∃ err, q.fetch code s e = Except.error err) →
      ∃ (acc' : Option String) (inv' : List String),
        routerLoop P code s e allNames (pre ++ rest) acc inv =
          routerLoop P code s e allNames rest acc' (inv ++ inv') ∧
        ∀ m ∈ inv', m ∈ pre := by
  intro pre
  induction pre with
  | nil =>
    intro rest acc inv _
    exact ⟨acc, [], by simp, by simp⟩
  | cons n pre' ih =>
    intro rest acc inv hall
    have htail : ∀ m ∈ pre', ∀ q, P m = some q →
        q.fetch code s e = Except.ok [] ∨
          ∃ err, q.fetch code s e = Except.error err :=
      fun m hm => hall m (List.mem_cons_of_mem n hm)
    cases hPn : P n with
    | none =>
      obtain ⟨acc', inv', heq, hmem⟩ := ih rest acc inv htail
      refine ⟨acc', inv', ?_, fun m hm => List.mem_cons_of_mem n (hmem m hm)⟩
      simpa only [List.cons_append, routerLoop, hPn] using heq
    | some p =>
      rcases hall n (List.mem_cons_self n pre') p hPn with hok | ⟨err, herr⟩
      · obtain ⟨acc', inv', heq, hmem⟩ := ih rest acc (inv ++ [n]) htail
        refine ⟨acc', n :: inv', ?_, ?_⟩
        · rw [List.cons_append]
          show (routerLoop P code s e allNames (n :: (pre' ++ rest)) acc inv) = _
          simp only [routerLoop, hPn, hok]
          rw [heq, List.append_assoc]
          rfl
        · intro m hm
          rcases List.mem_cons.mp hm with rfl | hm'
          · exact List.mem_cons_self m pre'
          · exact List.mem_cons_of_mem n (hmem m hm')
      · cases err with
        | providerError m0 =>
          obtain ⟨acc', inv', heq, hmem⟩ := ih rest (some m0) (inv ++ [n]) htail
          refine ⟨acc', n :: inv', ?_, ?_⟩
          · rw [List.cons_append]
            show (routerLoop P code s e allNames (n :: (pre' ++ rest)) acc inv) = _
            simp only [routerLoop, hPn, herr]
            rw [heq, List.append_assoc]
            rfl
          · intro m hm
            rcases List.mem_cons.mp hm with rfl | hm'
            · exact List.mem_cons_self m pre'
            · exact List.mem_cons_of_mem n (hmem m hm')
        | otherError m0 =>
          obtain ⟨acc', inv', heq, hmem⟩ :=
            ih rest (some ("Unexpected error from " ++ n ++ ": " ++ m0))
              (inv ++ [n]) htail
          refine ⟨acc', n :: inv', ?_, ?_⟩
          · rw [List.cons_append]
            show (routerLoop P code s e allNames (n :: (pre' ++ rest)) acc inv) = _
            simp only [routerLoop, hPn, herr]
            rw [heq, List.append_assoc]
            rfl
          · intro m hm
            rcases List.mem_cons.mp hm with rfl | hm'
            · exact List.mem_cons_self m pre'
            · exact List.mem_cons_of_mem n (hmem m hm')

lemma routerLoop_trace_mem (P : String → Option Provider) (code : String)
    (s e : Option String) (allNames : List String) :
    ∀ (names : List String) (acc : Option String) (inv : List String)
      (m : String),
      m ∈ (routerLoop P code s e allNames names acc inv).2 →
      m ∈ inv ∨ (m ∈ names ∧ (P m).isSome) := by
  intro names
  induction names with
  | nil => intro acc inv m hm; exact Or.inl hm
  | cons n rest ih =>
    intro acc inv m hm
    have step : ∀ (acc' : Option String),
        m ∈ (routerLoop P code s e allNames rest acc' (inv ++ [n])).2 →
        (P n).isSome →
        m ∈ inv ∨ (m ∈ n :: rest ∧ (P m).isSome) := by
      intro acc' hm' hs
      rcases ih acc' (inv ++ [n]) m hm' with hin | ⟨hmr, hms⟩
      · rcases List.mem_append.mp hin with h | h
        · exact Or.inl h
        · rcases List.mem_singleton.mp h with rfl
          exact Or.inr ⟨List.mem_cons_self m rest, hs⟩
      · exact Or.inr ⟨List.mem_cons_of_mem n hmr, hms⟩
    cases hPn : P n with
    | none =>
      rw [show routerLoop P code s e allNames (n :: rest) acc inv =
        routerLoop P code s e allNames rest acc inv by
          simp only [routerLoop, hPn]] at hm
      rcases ih acc inv m hm with h | ⟨hmr, hms⟩
      · exact Or.inl h
      · exact Or.inr ⟨List.mem_cons_of_mem n hmr, hms⟩
    | some p =>
      cases hf : p.fetch code s e with
      | ok res =>
        cases res with
        | nil =>
          rw [show routerLoop P code s e allNames (n :: rest) acc inv =
            routerLoop P code s e allNames rest acc (inv ++ [n]) by
              simp only [routerLoop, hPn, hf]] at hm
          exact step acc hm (by simp [hPn])
        | cons a t =>
          rw [show routerLoop P code s e allNames (n :: rest) acc inv =
            (Except.ok (a :: t), inv ++ [n]) by
              simp only [routerLoop, hPn, hf]] at hm
          rcases List.mem_append.mp hm with h | h
          · exact Or.inl h
          · rcases List.mem_singleton.mp h with rfl
            exact Or.inr ⟨List.mem_cons_self m rest, by simp [hPn]⟩
      | error err =>
        cases err with
        | providerError m0 =>
          rw [show routerLoop P code s e allNames (n :: rest) acc inv =
            routerLoop P code s e allNames rest (some m0) (inv ++ [n]) by
              simp only [routerLoop, hPn, hf]] at hm
          exact step (some m0) hm (by simp [hPn])
        | otherError m0 =>
          rw [show routerLoop P code s e allNames (n :: rest) acc inv =
            routerLoop P code s e allNames rest
              (some ("Unexpected error from " ++ n ++ ": " ++ m0))
              (inv ++ [n]) by
              simp only [routerLoop, hPn, hf]] at hm
          exact step _ hm (by simp [hPn])

/-- Counterexample for C3: with the candidate list `["BCRA"]` whose only
(registered) provider raises `ProviderError("boom")` for series `"X"`, the
aggregate message is the `All providers failed ...` string, which does not
contain the attempted provider name `BCRA`. -/
theorem claim_C3_counterexample :
    fetch_series allErrRegistry ["BCRA"] "X" none none =
      Except.error "All providers failed for series_code=X. Last error: boom" ∧
    strContains "All providers failed for series_code=X. Last error: boom"
      "BCRA" = false := by
  constructor
  · rfl
  · rfl

/-- Claim C3 as amended: when every registered candidate raises, the
aggregate error message contains the series code and the last underlying
error, but not the provider names (those appear only in the
no-recorded-error message). -/
theorem claim_C3_amended :
    ∀ (R : Registry) (order : List String) (code : String)
      (s e : Option String),
      (∀ n ∈ order, ∀ p, PROVIDERS R n = some p →
        ∃ err, p.fetch code s e = Except.error err) →
      (∃ n ∈ order, (PROVIDERS R n).isSome) →
      ∃ lastMsg,
        lastRecordedError (PROVIDERS R) code s e order none = some lastMsg ∧
        fetch_series R order code s e =
          Except.error ("All providers failed for series_code=" ++ code ++
            ". Last error: " ++ lastMsg) ∧
        strContains ("All providers failed for series_code=" ++ code ++
          ". Last error: " ++ lastMsg) code = true ∧
        strContains ("All providers failed for series_code=" ++ code ++
          ". Last error: " ++ lastMsg) lastMsg = true := by
  intro R order code s e hall hsome
  obtain ⟨lastMsg, hlast⟩ := Option.isSome_iff_exists.mp
    (lastRecordedError_isSome (PROVIDERS R) code s e order none hall hsome)
  refine ⟨lastMsg, hlast, ?_, ?_, ?_⟩
  · unfold fetch_series fetch_series_trace
    rw [routerLoop_all_error (PROVIDERS R) code s e order order none [] hall,
      hlast]
  · have h := strContains_of_shape "All providers failed for series_code="
      code (". Last error: " ++ lastMsg)
    rw [String.append_assoc]
    exact h
  · have h := strContains_of_shape
      ("All providers failed for series_code=" ++ code ++ ". Last error: ")
      lastMsg ""
    rw [String.append_empty] at h
    exact h

/-- Witness for the amended C3: both providers in `["BCRA", "INDEC"]` raise,
and the aggregate message carries the series code and the last error. -/
theorem claim_C3_amended_witness :
    ∃ lastMsg,
      lastRecordedError (PROVIDERS allErrRegistry) "X" none none
        ["BCRA", "INDEC"] none = some lastMsg ∧
      fetch_series allErrRegistry ["BCRA", "INDEC"] "X" none none =
        Except.error ("All providers failed for series_code=" ++ "X" ++
          ". Last error: " ++ lastMsg) ∧
      strContains ("All providers failed for series_code=" ++ "X" ++
        ". Last error: " ++ lastMsg) "X" = true ∧
      strContains ("All providers failed for series_code=" ++ "X" ++
        ". Last error: " ++ lastMsg) lastMsg = true :=
  claim_C3_amended allErrRegistry ["BCRA", "INDEC"] "X" none none
    (by
      intro n hn p hp
      fin_cases hn
      · injection hp with h
        exact ⟨PErr.providerError "boom", by rw [← h]; rfl⟩
      · injection hp with h
        exact ⟨PErr.providerError "indec down", by rw [← h]; rfl⟩)
    ⟨"BCRA", List.mem_cons_self "BCRA" ["INDEC"], rfl⟩

/-- Claim C4: the router returns the first successful non-empty result in
priority order and invokes no provider after it; registered candidates
before it that returned an empty success or raised are fallen through. -/
theorem claim_C4 :
    ∀ (R : Registry) (pre post : List String) (n code : String)
      (s e : Option String) (p : Provider) (pts : List (ℤ × ℚ)),
      PROVIDERS R n = some p →
      p.fetch code s e = Except.ok pts →
      pts ≠ [] →
      (∀ m ∈ pre, ∀ q, PROVIDERS R m = some q →
        q.fetch code s e = Except.ok [] ∨
          ∃ err, q.fetch code s e = Except.error err) →
      fetch_series R (pre ++ n :: post) code s e = Except.ok pts ∧
      ∀ m ∈ (fetch_series_trace R (pre ++ n :: post) code s e).2,
        m ∈ pre ++ [n] := by
  intro R pre post n code s e p pts hPn hf hne hpre
  obtain ⟨acc', inv', heq, hmem⟩ := routerLoop_falls_through (PROVIDERS R)
    code s e (pre ++ n :: post) pre (n :: post) none [] hpre
  have hstop : routerLoop (PROVIDERS R) code s e (pre ++ n :: post)
      (n :: post) acc' ([] ++ inv') = (Except.ok pts, ([] ++ inv') ++ [n]) := by
    cases pts with
    | nil => exact absurd rfl hne
    | cons a t => simp only [routerLoop, hPn, hf]
  constructor
  · unfold fetch_series fetch_series_trace
    rw [heq, hstop]
  · intro m hm
    unfold fetch_series_trace at hm
    rw [heq, hstop] at hm
    simp only [List.nil_append] at hm
    rcases List.mem_append.mp hm with h | h
    · exact List.mem_append.mpr (Or.inl (hmem m h))
    · exact List.mem_append.mpr (Or.inr h)

/-- Witness for C4: the scenario BCRA empty, INDEC non-empty, YAHOOFX would
raise — the router returns INDEC's result and every invoked provider is
BCRA or INDEC (so YAHOOFX is never invoked). -/
theorem claim_C4_witness :
    fetch_series shortCircuitRegistry ["BCRA", "INDEC", "YAHOOFX"] "X"
      none none = Except.ok [(0, 1)] ∧
    ∀ m ∈ (fetch_series_trace shortCircuitRegistry
      ["BCRA", "INDEC", "YAHOOFX"] "X" none none).2, m ∈ ["BCRA"] ++ ["INDEC"] :=
  claim_C4 shortCircuitRegistry ["BCRA"] ["YAHOOFX"] "INDEC" "X" none none
    _ [(0, 1)] rfl rfl (by simp)
    (by
      intro m hm q hq
      fin_cases hm
      injection hq with h
      exact Or.inl (by rw [← h]; rfl))

/-- Claim C10: the registry maps exactly the names BCRA, INDEC, YAHOOFX and
BLUELYTICS, and under the default priority order (which also names the
unregistered IMF and TE) every provider the router invokes is one of those
four. -/
theorem claim_C10 :
    (∀ (R : Registry) (name : String),
      (PROVIDERS R name).isSome ↔
        name ∈ ["BCRA", "INDEC", "YAHOOFX", "BLUELYTICS"]) ∧
    (∀ (R : Registry) (code : String) (s e : Option String) (m : String),
      m ∈ (fetch_series_trace R DEFAULT_ORDER code s e).2 →
      m ∈ ["BCRA", "INDEC", "BLUELYTICS", "YAHOOFX"]) := by
  have hreg : ∀ (R : Registry) (name : String),
      (PROVIDERS R name).isSome ↔
        name ∈ ["BCRA", "INDEC", "YAHOOFX", "BLUELYTICS"] := by
    intro R name
    unfold PROVIDERS
    split_ifs with h1 h2 h3 h4 <;> simp_all
  refine ⟨hreg, ?_⟩
  intro R code s e m hm
  rcases routerLoop_trace_mem (PROVIDERS R) code s e DEFAULT_ORDER
    DEFAULT_ORDER none [] m hm with h | ⟨-, hsome⟩
  · exact absurd h (List.not_mem_nil m)
  · have h4 := (hreg R m).mp hsome
    simp only [List.mem_cons, List.not_mem_nil, or_false] at h4 ⊢
    tauto

/-- Witness for C10: with every provider raising, the default order invokes
BCRA, whose membership in the four-name registry set follows from the
claim. -/
theorem claim_C10_witness :
    "BCRA" ∈ (fetch_series_trace allErrRegistry DEFAULT_ORDER "X"
      none none).2 ∧
    "BCRA" ∈ ["BCRA", "INDEC", "BLUELYTICS", "YAHOOFX"] :=
  have h : "BCRA" ∈ (fetch_series_trace allErrRegistry DEFAULT_ORDER "X"
      none none).2 := by decide
  ⟨h, claim_C10.2 allErrRegistry "X" none none "BCRA" h⟩

/-- Claim C8: the macro weight and Sharpe value returned by
`evaluate_states` depend only on `exp_return`, `vol` and `rf`: two calls
with equal Sharpe inputs but arbitrary differing gate inputs return equal
`macro_weight` and equal `sharpe`. -/
theorem claim_C8 :
    ∀ (fmt : ℝ → String) (g1 r1 c1 l1 t1 g2 r2 c2 l2 t2 : ℚ)
      (er vol rf : ℝ),
      (evaluate_states fmt g1 r1 c1 l1 t1 er vol rf).macro_weight =
        (evaluate_states fmt g2 r2 c2 l2 t2 er vol rf).macro_weight ∧
      (evaluate_states fmt g1 r1 c1 l1 t1 er vol rf).sharpe =
        (evaluate_states fmt g2 r2 c2 l2 t2 er vol rf).sharpe := by
  intro fmt g1 r1 c1 l1 t1 g2 r2 c2 l2 t2 er vol rf
  exact ⟨rfl, rfl⟩
